import Mathlib

/-!
# Chain priority resolution of the nftables firewall backend

A shallow embedding of `daemon/firewall/nftables/utils.go`: the family
resolver `getFamilyCode`, the hook resolver `getHook`, the conntrack
sub-resolver `getConntrackPriority` and the core resolver `getChainPriority`.

Go strings are Lean strings, the nil `*nftables.ChainPriority` of a rejected
combination is `none`, and the `log.Warning` side channel is dropped (it does
not influence the returned values).
-/

namespace Nftables

/-! ## Library types -/

/-- The chain types of `github.com/google/nftables` used by the resolver:
`ChainTypeFilter`, `ChainTypeRoute`, `ChainTypeNAT`. -/
inductive ChainType where
  | Filter
  | Route
  | NAT
  deriving DecidableEq, Repr

/-- The named priority bands of `github.com/google/nftables` that the
resolver can return (`ChainPriorityFilter`, `ChainPriorityRaw`, ...). -/
inductive ChainPriority where
  | Raw
  | SELinuxFirst
  | Conntrack
  | Mangle
  | NATDest
  | Filter
  | Security
  | NATSource
  | SELinuxLast
  | ConntrackHelper
  | ConntrackConfirm
  deriving DecidableEq, Repr

/-- The int32 value the library gives each priority band. -/
def ChainPriority.toInt : ChainPriority → Int
  | .Raw => -300
  | .SELinuxFirst => -225
  | .Conntrack => -200
  | .Mangle => -150
  | .NATDest => -100
  | .Filter => 0
  | .Security => 50
  | .NATSource => 100
  | .SELinuxLast => 225
  | .ConntrackHelper => 300
  | .ConntrackConfirm => 2147483647

/-- The table families of `github.com/google/nftables`. -/
inductive TableFamily where
  | INet
  | IPv4
  | IPv6
  | ARP
  | Netdev
  | Bridge
  deriving DecidableEq, Repr

/-- The chain hooks of `github.com/google/nftables` used by `getHook`. -/
inductive ChainHook where
  | Prerouting
  | Input
  | Forward
  | Output
  | Postrouting
  | Ingress
  deriving DecidableEq, Repr

/-! ## Keyword constants of the `exprs` package -/

/-- Modelled from the spec: the `exprs` constant for the family keyword `ip`. -/
def NFT_FAMILY_IP : String := "ip"
/-- Modelled from the spec: the `exprs` constant for the family keyword `ip6`. -/
def NFT_FAMILY_IP6 : String := "ip6"
/-- Modelled from the spec: the `exprs` constant for the family keyword `bridge`. -/
def NFT_FAMILY_BRIDGE : String := "bridge"
/-- Modelled from the spec: the `exprs` constant for the family keyword `arp`. -/
def NFT_FAMILY_ARP : String := "arp"
/-- Modelled from the spec: the `exprs` constant for the family keyword `netdev`. -/
def NFT_FAMILY_NETDEV : String := "netdev"

/-- Modelled from the spec: the `exprs` constant for the hook keyword `prerouting`. -/
def NFT_HOOK_PREROUTING : String := "prerouting"
/-- Modelled from the spec: the `exprs` constant for the hook keyword `input`. -/
def NFT_HOOK_INPUT : String := "input"
/-- Modelled from the spec: the `exprs` constant for the hook keyword `forward`. -/
def NFT_HOOK_FORWARD : String := "forward"
/-- Modelled from the spec: the `exprs` constant for the hook keyword `output`. -/
def NFT_HOOK_OUTPUT : String := "output"
/-- Modelled from the spec: the `exprs` constant for the hook keyword `postrouting`. -/
def NFT_HOOK_POSTROUTING : String := "postrouting"
/-- Modelled from the spec: the `exprs` constant for the hook keyword `ingress`. -/
def NFT_HOOK_INGRESS : String := "ingress"
/-- Modelled from the spec: the `exprs` constant for the hook keyword `egress`. -/
def NFT_HOOK_EGRESS : String := "egress"

/-- Modelled from the spec: the `exprs` constant for the chain keyword `filter`. -/
def NFT_CHAIN_FILTER : String := "filter"
/-- Modelled from the spec: the `exprs` constant for the chain keyword `mangle`. -/
def NFT_CHAIN_MANGLE : String := "mangle"
/-- Modelled from the spec: the `exprs` constant for the chain keyword `raw`. -/
def NFT_CHAIN_RAW : String := "raw"
/-- Modelled from the spec: the `exprs` constant for the chain keyword `conntrack`. -/
def NFT_CHAIN_CONNTRACK : String := "conntrack"
/-- Modelled from the spec: the `exprs` constant for the chain keyword `nat-dest`. -/
def NFT_CHAIN_NATDEST : String := "nat-dest"
/-- Modelled from the spec: the `exprs` constant for the chain keyword `nat-source`. -/
def NFT_CHAIN_NATSOURCE : String := "nat-source"
/-- Modelled from the spec: the `exprs` constant for the chain keyword `security`. -/
def NFT_CHAIN_SECURITY : String := "security"
/-- Modelled from the spec: the `exprs` constant for the chain keyword `selinux`. -/
def NFT_CHAIN_SELINUX : String := "selinux"

/-! ## The resolvers -/

/-- Go `strings.ToLower` on ASCII: every letter `A`..`Z` is replaced by its
lower-case letter and every other character is kept. The Unicode case tables
the Go library applies to letters outside ASCII are not part of the model; all
keyword constants are ASCII. -/
def strings_ToLower (s : String) : String :=
  String.mk (s.data.map Char.toLower)

/-- Family resolver: `getFamilyCode` switches on the family string as given
(no case folding) and defaults to the INet family. -/
def getFamilyCode (family : String) : TableFamily :=
  if family = NFT_FAMILY_IP6 then TableFamily.IPv6
  else if family = NFT_FAMILY_IP then TableFamily.IPv4
  else if family = NFT_FAMILY_BRIDGE then TableFamily.Bridge
  else if family = NFT_FAMILY_ARP then TableFamily.ARP
  else if family = NFT_FAMILY_NETDEV then TableFamily.Netdev
  else TableFamily.INet

/-- Hook resolver: `getHook` switches on the lower-cased hook string and
defaults to the Output hook. -/
def getHook (chain : String) : ChainHook :=
  let c := strings_ToLower chain
  if c = NFT_HOOK_INPUT then ChainHook.Input
  else if c = NFT_HOOK_PREROUTING then ChainHook.Prerouting
  else if c = NFT_HOOK_POSTROUTING then ChainHook.Postrouting
  else if c = NFT_HOOK_FORWARD then ChainHook.Forward
  else if c = NFT_HOOK_INGRESS then ChainHook.Ingress
  else ChainHook.Output

/-- Conntrack sub-resolver: `getConntrackPriority` switches on the hook
string it is handed (already lower-cased by its caller). -/
def getConntrackPriority (hook : String) : ChainPriority × ChainType :=
  if hook = NFT_HOOK_PREROUTING then (ChainPriority.Conntrack, ChainType.Filter)
  else if hook = NFT_HOOK_OUTPUT then (ChainPriority.Conntrack, ChainType.Filter)
  else if hook = NFT_HOOK_POSTROUTING then (ChainPriority.ConntrackHelper, ChainType.NAT)
  else if hook = NFT_HOOK_INPUT then (ChainPriority.ConntrackConfirm, ChainType.Filter)
  else (ChainPriority.Conntrack, ChainType.Filter)

/-- The `switch nftKeyword` block of `getChainPriority`, on the lower-cased
arguments: the priority and type it leaves in `chainPrio` and `chainType`,
which start as `ChainPriorityFilter` and `ChainTypeFilter`. -/
def chainSwitch (family nftKeyword hook : String) : ChainPriority × ChainType :=
  if nftKeyword = NFT_CHAIN_FILTER then
    if family = NFT_FAMILY_BRIDGE then
      if hook = NFT_HOOK_PREROUTING then (ChainPriority.Raw, ChainType.Filter)
      else if hook = NFT_HOOK_OUTPUT then (ChainPriority.NATSource, ChainType.Filter)
      else if hook = NFT_HOOK_POSTROUTING then (ChainPriority.ConntrackHelper, ChainType.Filter)
      else (ChainPriority.Conntrack, ChainType.Filter)
    else (ChainPriority.Filter, ChainType.Filter)
  else if nftKeyword = NFT_CHAIN_MANGLE then
    if hook = NFT_HOOK_OUTPUT then (ChainPriority.Mangle, ChainType.Route)
    else (ChainPriority.Mangle, ChainType.Filter)
  else if nftKeyword = NFT_CHAIN_RAW then (ChainPriority.Raw, ChainType.Filter)
  else if nftKeyword = NFT_CHAIN_CONNTRACK then getConntrackPriority hook
  else if nftKeyword = NFT_CHAIN_NATDEST then (ChainPriority.NATDest, ChainType.NAT)
  else if nftKeyword = NFT_CHAIN_NATSOURCE then (ChainPriority.NATSource, ChainType.NAT)
  else if nftKeyword = NFT_CHAIN_SECURITY then (ChainPriority.Security, ChainType.Filter)
  else if nftKeyword = NFT_CHAIN_SELINUX then
    if hook ≠ NFT_HOOK_POSTROUTING then (ChainPriority.SELinuxLast, ChainType.Filter)
    else (ChainPriority.SELinuxFirst, ChainType.Filter)
  else (ChainPriority.Filter, ChainType.Filter)

/-- Core resolver: `getChainPriority` lower-cases its three arguments, runs
the four constraint checks in order (each returning the nil priority, here
`none`, with the initial chain type) and otherwise returns the priority and
type chosen by the keyword switch. -/
def getChainPriority (family nftKeyword hook : String) : Option ChainPriority × ChainType :=
  let chainType := ChainType.Filter
  let family := strings_ToLower family
  let nftKeyword := strings_ToLower nftKeyword
  let hook := strings_ToLower hook
  if (nftKeyword = NFT_CHAIN_NATDEST ∨ nftKeyword = NFT_CHAIN_NATSOURCE) ∧ hook = NFT_HOOK_FORWARD then
    (none, chainType)
  else if family = NFT_FAMILY_NETDEV ∧
      (nftKeyword ≠ NFT_CHAIN_FILTER ∨ (hook ≠ NFT_HOOK_EGRESS ∨ hook ≠ NFT_HOOK_INGRESS)) then
    (none, chainType)
  else if family = NFT_FAMILY_ARP ∧
      (nftKeyword ≠ NFT_CHAIN_FILTER ∨ (hook ≠ NFT_HOOK_OUTPUT ∨ hook ≠ NFT_HOOK_INPUT)) then
    (none, chainType)
  else if family = NFT_FAMILY_BRIDGE ∧
      (nftKeyword ≠ NFT_CHAIN_FILTER ∨ (hook = NFT_HOOK_EGRESS ∨ hook = NFT_HOOK_INGRESS)) then
    (none, chainType)
  else
    let r := chainSwitch family nftKeyword hook
    (some r.1, r.2)

/-! ## Evaluation checks -/

example : getChainPriority "ip" "nat-dest" "prerouting" = (some .NATDest, .NAT) := by decide
example : getChainPriority "IP" "Conntrack" "POSTROUTING" = (some .ConntrackHelper, .NAT) := by decide
example : getChainPriority "bridge" "filter" "prerouting" = (some .Raw, .Filter) := by decide
example : getChainPriority "ip" "mangle" "output" = (some .Mangle, .Route) := by decide
example : getHook "FORWARD" = ChainHook.Forward := by decide
example : getFamilyCode "BRIDGE" = TableFamily.INet := by decide

/-! ## Shared lemmas -/

/-- The result of `getChainPriority` in terms of the lower-cased arguments:
the four constraint checks, then the keyword switch. -/
theorem getChainPriority_eq (family nftKeyword hook : String) :
    getChainPriority family nftKeyword hook =
      if (strings_ToLower nftKeyword = NFT_CHAIN_NATDEST ∨
            strings_ToLower nftKeyword = NFT_CHAIN_NATSOURCE) ∧
          strings_ToLower hook = NFT_HOOK_FORWARD then (none, ChainType.Filter)
      else if strings_ToLower family = NFT_FAMILY_NETDEV then (none, ChainType.Filter)
      else if strings_ToLower family = NFT_FAMILY_ARP then (none, ChainType.Filter)
      else if strings_ToLower family = NFT_FAMILY_BRIDGE ∧
          (strings_ToLower nftKeyword ≠ NFT_CHAIN_FILTER ∨
            (strings_ToLower hook = NFT_HOOK_EGRESS ∨ strings_ToLower hook = NFT_HOOK_INGRESS)) then
        (none, ChainType.Filter)
      else
        (some (chainSwitch (strings_ToLower family) (strings_ToLower nftKeyword)
            (strings_ToLower hook)).1,
          (chainSwitch (strings_ToLower family) (strings_ToLower nftKeyword)
            (strings_ToLower hook)).2) := by
  unfold getChainPriority
  generalize strings_ToLower family = f
  generalize strings_ToLower nftKeyword = k
  generalize strings_ToLower hook = h
  have hne : h ≠ NFT_HOOK_EGRESS ∨ h ≠ NFT_HOOK_INGRESS := by
    by_cases he : h = NFT_HOOK_EGRESS
    · right; rw [he]; decide
    · left; exact he
  have hna : h ≠ NFT_HOOK_OUTPUT ∨ h ≠ NFT_HOOK_INPUT := by
    by_cases he : h = NFT_HOOK_OUTPUT
    · right; rw [he]; decide
    · left; exact he
  simp only [hne, hna, or_true, and_true]

/-- A family that is none of netdev, arp, bridge passes the three family
checks: only the NAT/forward check can reject. -/
theorem getChainPriority_other_family (family nftKeyword hook : String)
    (hn : strings_ToLower family ≠ NFT_FAMILY_NETDEV)
    (ha : strings_ToLower family ≠ NFT_FAMILY_ARP)
    (hb : strings_ToLower family ≠ NFT_FAMILY_BRIDGE) :
    getChainPriority family nftKeyword hook =
      if (strings_ToLower nftKeyword = NFT_CHAIN_NATDEST ∨
            strings_ToLower nftKeyword = NFT_CHAIN_NATSOURCE) ∧
          strings_ToLower hook = NFT_HOOK_FORWARD then (none, ChainType.Filter)
      else
        (some (chainSwitch (strings_ToLower family) (strings_ToLower nftKeyword)
            (strings_ToLower hook)).1,
          (chainSwitch (strings_ToLower family) (strings_ToLower nftKeyword)
            (strings_ToLower hook)).2) := by
  rw [getChainPriority_eq]
  simp only [hn, ha, hb, if_false, false_and]

/-! ## Family exclusions and the NAT/forward exclusion -/

/-- C1: on the netdev filter chains at the ingress and egress hooks, which the
netdev exclusion is meant to let through, `getChainPriority` returns the nil
priority: the clause `hook != egress || hook != ingress` holds at both hooks. -/
theorem getChainPriority_netdev_filter_ingress_egress :
    getChainPriority "netdev" "filter" "ingress" = (none, ChainType.Filter) ∧
    getChainPriority "netdev" "filter" "egress" = (none, ChainType.Filter) ∧
    strings_ToLower "netdev" = NFT_FAMILY_NETDEV ∧
    strings_ToLower "filter" = NFT_CHAIN_FILTER ∧
    strings_ToLower "ingress" = NFT_HOOK_INGRESS ∧
    strings_ToLower "egress" = NFT_HOOK_EGRESS := by
  decide

/-- C2: on the arp filter chains at the input and output hooks, which the arp
exclusion is meant to let through, `getChainPriority` returns the nil priority
instead of the filter priority: the clause `hook != output || hook != input`
holds at both hooks. -/
theorem getChainPriority_arp_filter_input_output :
    getChainPriority "arp" "filter" "input" = (none, ChainType.Filter) ∧
    getChainPriority "arp" "filter" "output" = (none, ChainType.Filter) ∧
    strings_ToLower "arp" = NFT_FAMILY_ARP ∧
    strings_ToLower "filter" = NFT_CHAIN_FILTER ∧
    strings_ToLower "input" = NFT_HOOK_INPUT ∧
    strings_ToLower "output" = NFT_HOOK_OUTPUT := by
  decide

/-- C3: for family `ip` and keyword `selinux` the code returns SELinuxLast
(225) at hook `input`, which is not postrouting, and SELinuxFirst (-225) at
hook `postrouting`: the two arms of the selinux case are the reverse of what
the claim states. -/
theorem getChainPriority_selinux_arms_swapped :
    strings_ToLower "ip" ≠ NFT_FAMILY_NETDEV ∧
    strings_ToLower "ip" ≠ NFT_FAMILY_ARP ∧
    strings_ToLower "ip" ≠ NFT_FAMILY_BRIDGE ∧
    strings_ToLower "selinux" = NFT_CHAIN_SELINUX ∧
    strings_ToLower "input" ≠ NFT_HOOK_POSTROUTING ∧
    getChainPriority "ip" "selinux" "input" =
      (some ChainPriority.SELinuxLast, ChainType.Filter) ∧
    getChainPriority "ip" "selinux" "input" ≠
      (some ChainPriority.SELinuxFirst, ChainType.Filter) ∧
    strings_ToLower "postrouting" = NFT_HOOK_POSTROUTING ∧
    getChainPriority "ip" "selinux" "postrouting" =
      (some ChainPriority.SELinuxFirst, ChainType.Filter) ∧
    getChainPriority "ip" "selinux" "postrouting" ≠
      (some ChainPriority.SELinuxLast, ChainType.Filter) ∧
    ChainPriority.SELinuxLast.toInt = 225 ∧
    ChainPriority.SELinuxFirst.toInt = -225 := by
  decide

/-- The selinux case as written on lines 138-145, for every family other than
netdev, arp and bridge: priority SELinuxLast when the lower-cased hook is not
postrouting and SELinuxFirst when it is, with type filter. -/
theorem getChainPriority_selinux (family nftKeyword hook : String)
    (hn : strings_ToLower family ≠ NFT_FAMILY_NETDEV)
    (ha : strings_ToLower family ≠ NFT_FAMILY_ARP)
    (hb : strings_ToLower family ≠ NFT_FAMILY_BRIDGE)
    (hk : strings_ToLower nftKeyword = NFT_CHAIN_SELINUX) :
    (strings_ToLower hook ≠ NFT_HOOK_POSTROUTING →
      getChainPriority family nftKeyword hook =
        (some ChainPriority.SELinuxLast, ChainType.Filter)) ∧
    (strings_ToLower hook = NFT_HOOK_POSTROUTING →
      getChainPriority family nftKeyword hook =
        (some ChainPriority.SELinuxFirst, ChainType.Filter)) := by
  rw [getChainPriority_other_family family nftKeyword hook hn ha hb, hk]
  constructor
  · intro hp
    simp [chainSwitch, hp, NFT_CHAIN_SELINUX, NFT_CHAIN_NATDEST, NFT_CHAIN_NATSOURCE,
      NFT_CHAIN_FILTER, NFT_CHAIN_MANGLE, NFT_CHAIN_RAW, NFT_CHAIN_CONNTRACK,
      NFT_CHAIN_SECURITY]
  · intro hp
    simp [chainSwitch, hp, NFT_CHAIN_SELINUX, NFT_CHAIN_NATDEST, NFT_CHAIN_NATSOURCE,
      NFT_CHAIN_FILTER, NFT_CHAIN_MANGLE, NFT_CHAIN_RAW, NFT_CHAIN_CONNTRACK,
      NFT_CHAIN_SECURITY]

/-- Witness of `getChainPriority_selinux` at family `inet`, keyword `SELinux`
and hook `Output`. -/
theorem getChainPriority_selinux_witness :
    getChainPriority "inet" "SELinux" "Output" =
      (some ChainPriority.SELinuxLast, ChainType.Filter) :=
  (getChainPriority_selinux "inet" "SELinux" "Output" (by decide) (by decide) (by decide)
    (by decide)).1 (by decide)

/-- C4: for every family string, if the lower-cased chain keyword is the
nat-dest or the nat-source keyword and the lower-cased hook is forward,
`getChainPriority` rejects: it returns the nil priority. -/
theorem getChainPriority_nat_forward (family nftKeyword hook : String)
    (hk : strings_ToLower nftKeyword = NFT_CHAIN_NATDEST ∨
      strings_ToLower nftKeyword = NFT_CHAIN_NATSOURCE)
    (hh : strings_ToLower hook = NFT_HOOK_FORWARD) :
    (getChainPriority family nftKeyword hook).1 = none := by
  rw [getChainPriority_eq, if_pos ⟨hk, hh⟩]

/-- Witness of `getChainPriority_nat_forward` at an unknown family, keyword
`NAT-Source` and hook `Forward`. -/
theorem getChainPriority_nat_forward_witness :
    (getChainPriority "unknown" "NAT-Source" "Forward").1 = none :=
  getChainPriority_nat_forward "unknown" "NAT-Source" "Forward" (Or.inr (by decide)) (by decide)

/-- C5: for family bridge (lower-cased) and every chain keyword and hook,
`getChainPriority` returns the nil priority if and only if the lower-cased
keyword is not filter or the lower-cased hook is egress or ingress. -/
theorem getChainPriority_bridge_rejects_iff (family nftKeyword hook : String)
    (hb : strings_ToLower family = NFT_FAMILY_BRIDGE) :
    (getChainPriority family nftKeyword hook).1 = none ↔
      (strings_ToLower nftKeyword ≠ NFT_CHAIN_FILTER ∨
        (strings_ToLower hook = NFT_HOOK_EGRESS ∨ strings_ToLower hook = NFT_HOOK_INGRESS)) := by
  rw [getChainPriority_eq, hb]
  have h1 : NFT_FAMILY_BRIDGE ≠ NFT_FAMILY_NETDEV := by decide
  have h2 : NFT_FAMILY_BRIDGE ≠ NFT_FAMILY_ARP := by decide
  simp only [h1, h2, if_false, true_and]
  by_cases hc : strings_ToLower nftKeyword ≠ NFT_CHAIN_FILTER ∨
      (strings_ToLower hook = NFT_HOOK_EGRESS ∨ strings_ToLower hook = NFT_HOOK_INGRESS)
  · simp only [if_pos hc, ite_self, hc, if_true]
  · rw [if_neg hc]
    have hk : strings_ToLower nftKeyword = NFT_CHAIN_FILTER := by
      by_contra hne
      exact hc (Or.inl hne)
    have hnat : ¬ ((strings_ToLower nftKeyword = NFT_CHAIN_NATDEST ∨
        strings_ToLower nftKeyword = NFT_CHAIN_NATSOURCE) ∧
        strings_ToLower hook = NFT_HOOK_FORWARD) := by
      rw [hk]
      intro hx
      rcases hx.1 with h | h
      · exact absurd h (by decide)
      · exact absurd h (by decide)
    rw [if_neg hnat]
    simp only [hc, iff_false]
    exact Option.some_ne_none _

/-- Witness of `getChainPriority_bridge_rejects_iff` at family `Bridge`,
keyword `filter` and hook `ingress`. -/
theorem getChainPriority_bridge_rejects_iff_witness :
    (getChainPriority "Bridge" "filter" "ingress").1 = none ↔
      (strings_ToLower "filter" ≠ NFT_CHAIN_FILTER ∨
        (strings_ToLower "ingress" = NFT_HOOK_EGRESS ∨
          strings_ToLower "ingress" = NFT_HOOK_INGRESS)) :=
  getChainPriority_bridge_rejects_iff "Bridge" "filter" "ingress" (by decide)

/-! ## Rejection outside the netdev, arp and bridge families -/

/-- C6: for every family whose lower-cased value is not netdev, arp or
bridge, `getChainPriority` returns the nil priority exactly when the
lower-cased keyword is nat-dest or nat-source and the lower-cased hook is
forward; every other keyword and hook yields a priority. -/
theorem getChainPriority_other_family_rejects_iff (family nftKeyword hook : String)
    (hn : strings_ToLower family ≠ NFT_FAMILY_NETDEV)
    (ha : strings_ToLower family ≠ NFT_FAMILY_ARP)
    (hb : strings_ToLower family ≠ NFT_FAMILY_BRIDGE) :
    (getChainPriority family nftKeyword hook).1 = none ↔
      ((strings_ToLower nftKeyword = NFT_CHAIN_NATDEST ∨
          strings_ToLower nftKeyword = NFT_CHAIN_NATSOURCE) ∧
        strings_ToLower hook = NFT_HOOK_FORWARD) := by
  rw [getChainPriority_other_family family nftKeyword hook hn ha hb]
  by_cases hc : (strings_ToLower nftKeyword = NFT_CHAIN_NATDEST ∨
      strings_ToLower nftKeyword = NFT_CHAIN_NATSOURCE) ∧
      strings_ToLower hook = NFT_HOOK_FORWARD
  · rw [if_pos hc]
    exact iff_of_true rfl hc
  · rw [if_neg hc]
    simp only [hc, iff_false]
    exact Option.some_ne_none _

/-- Witness of `getChainPriority_other_family_rejects_iff` at the empty
family, keyword `nat-dest` and hook `FORWARD`. -/
theorem getChainPriority_other_family_rejects_iff_witness :
    (getChainPriority "" "nat-dest" "FORWARD").1 = none ↔
      ((strings_ToLower "nat-dest" = NFT_CHAIN_NATDEST ∨
          strings_ToLower "nat-dest" = NFT_CHAIN_NATSOURCE) ∧
        strings_ToLower "FORWARD" = NFT_HOOK_FORWARD) :=
  getChainPriority_other_family_rejects_iff "" "nat-dest" "FORWARD" (by decide) (by decide)
    (by decide)

/-! ## Unknown chain keywords -/

/-- C7, as stated, fails: the keyword `foo` is none of the eight chain
keywords, and with family `bridge` and hook `input` it is rejected. -/
theorem getChainPriority_unknown_keyword_bridge_rejected :
    strings_ToLower "foo" ≠ NFT_CHAIN_FILTER ∧
    strings_ToLower "foo" ≠ NFT_CHAIN_MANGLE ∧
    strings_ToLower "foo" ≠ NFT_CHAIN_RAW ∧
    strings_ToLower "foo" ≠ NFT_CHAIN_CONNTRACK ∧
    strings_ToLower "foo" ≠ NFT_CHAIN_NATDEST ∧
    strings_ToLower "foo" ≠ NFT_CHAIN_NATSOURCE ∧
    strings_ToLower "foo" ≠ NFT_CHAIN_SECURITY ∧
    strings_ToLower "foo" ≠ NFT_CHAIN_SELINUX ∧
    getChainPriority "bridge" "foo" "input" = (none, ChainType.Filter) := by
  decide

/-- C7, amended: for every hook string and every chain keyword whose
lower-cased value is none of the eight chain keywords, `getChainPriority`
resolves to priority Filter and type filter when the lower-cased family is not
netdev, arp or bridge, and is rejected when it is one of these three. -/
theorem getChainPriority_unknown_keyword (family nftKeyword hook : String)
    (h1 : strings_ToLower nftKeyword ≠ NFT_CHAIN_FILTER)
    (h2 : strings_ToLower nftKeyword ≠ NFT_CHAIN_MANGLE)
    (h3 : strings_ToLower nftKeyword ≠ NFT_CHAIN_RAW)
    (h4 : strings_ToLower nftKeyword ≠ NFT_CHAIN_CONNTRACK)
    (h5 : strings_ToLower nftKeyword ≠ NFT_CHAIN_NATDEST)
    (h6 : strings_ToLower nftKeyword ≠ NFT_CHAIN_NATSOURCE)
    (h7 : strings_ToLower nftKeyword ≠ NFT_CHAIN_SECURITY)
    (h8 : strings_ToLower nftKeyword ≠ NFT_CHAIN_SELINUX) :
    ((strings_ToLower family ≠ NFT_FAMILY_NETDEV ∧ strings_ToLower family ≠ NFT_FAMILY_ARP ∧
        strings_ToLower family ≠ NFT_FAMILY_BRIDGE) →
      getChainPriority family nftKeyword hook = (some ChainPriority.Filter, ChainType.Filter)) ∧
    ((strings_ToLower family = NFT_FAMILY_NETDEV ∨ strings_ToLower family = NFT_FAMILY_ARP ∨
        strings_ToLower family = NFT_FAMILY_BRIDGE) →
      getChainPriority family nftKeyword hook = (none, ChainType.Filter)) := by
  constructor
  · rintro ⟨hn, ha, hb⟩
    rw [getChainPriority_other_family family nftKeyword hook hn ha hb]
    simp only [h5, h6, or_self, false_and, if_false, chainSwitch, h1, h2, h3, h4, h7, h8]
  · intro hf
    rw [getChainPriority_eq]
    simp only [h5, h6, or_self, false_and, if_false, h1, ne_eq, not_false_eq_true, true_or,
      and_true]
    rcases hf with hf | hf | hf
    · simp only [hf, if_true]
    · simp only [hf, if_true, ite_self]
    · simp only [hf, if_true, ite_self]

/-- Witness of `getChainPriority_unknown_keyword` at family `ip6`, keyword
`Foo` and hook `input`. -/
theorem getChainPriority_unknown_keyword_witness :
    getChainPriority "ip6" "Foo" "input" = (some ChainPriority.Filter, ChainType.Filter) :=
  (getChainPriority_unknown_keyword "ip6" "Foo" "input" (by decide) (by decide) (by decide)
    (by decide) (by decide) (by decide) (by decide) (by decide)).1
    ⟨by decide, by decide, by decide⟩

/-! ## NAT chains and hooks -/

/-- C8, as stated, fails: with family `ip` and keyword `nat-dest` the hook
string `xyz`, which is none of prerouting, postrouting, output, input, is
resolved (to the NATDest priority), not rejected. -/
theorem getChainPriority_nat_unknown_hook_resolved :
    strings_ToLower "nat-dest" = NFT_CHAIN_NATDEST ∧
    (getChainPriority "ip" "nat-dest" "xyz").1 ≠ none ∧
    getChainPriority "ip" "nat-dest" "xyz" = (some ChainPriority.NATDest, ChainType.NAT) ∧
    strings_ToLower "xyz" ≠ NFT_HOOK_PREROUTING ∧
    strings_ToLower "xyz" ≠ NFT_HOOK_POSTROUTING ∧
    strings_ToLower "xyz" ≠ NFT_HOOK_OUTPUT ∧
    strings_ToLower "xyz" ≠ NFT_HOOK_INPUT := by
  decide

/-- C8, amended: for every family and hook string, if `getChainPriority` with
keyword nat-dest or nat-source returns a priority, then the lower-cased hook is
not forward. -/
theorem getChainPriority_nat_resolved_not_forward (family nftKeyword hook : String)
    (hk : strings_ToLower nftKeyword = NFT_CHAIN_NATDEST ∨
      strings_ToLower nftKeyword = NFT_CHAIN_NATSOURCE)
    (hr : (getChainPriority family nftKeyword hook).1 ≠ none) :
    strings_ToLower hook ≠ NFT_HOOK_FORWARD := by
  intro hh
  apply hr
  rw [getChainPriority_eq, if_pos ⟨hk, hh⟩]

/-- Witness of `getChainPriority_nat_resolved_not_forward` at family `ip`,
keyword `nat-source` and hook `postrouting`. -/
theorem getChainPriority_nat_resolved_not_forward_witness :
    strings_ToLower "postrouting" ≠ NFT_HOOK_FORWARD :=
  getChainPriority_nat_resolved_not_forward "ip" "nat-source" "postrouting"
    (Or.inr (by decide)) (by decide)

/-! ## The filter and conntrack keywords -/

/-- C9: for the chain keyword filter (lower-cased): when the family is bridge
and the hook is not egress or ingress, `getChainPriority` returns type filter
with priority Raw at prerouting, NATSource at output, ConntrackHelper at
postrouting and Conntrack at every other hook; when the family is not bridge,
netdev or arp it returns priority Filter and type filter for every hook. -/
theorem getChainPriority_filter (family nftKeyword hook : String)
    (hk : strings_ToLower nftKeyword = NFT_CHAIN_FILTER) :
    (strings_ToLower family = NFT_FAMILY_BRIDGE →
      strings_ToLower hook ≠ NFT_HOOK_EGRESS → strings_ToLower hook ≠ NFT_HOOK_INGRESS →
        (strings_ToLower hook = NFT_HOOK_PREROUTING →
          getChainPriority family nftKeyword hook = (some ChainPriority.Raw, ChainType.Filter)) ∧
        (strings_ToLower hook = NFT_HOOK_OUTPUT →
          getChainPriority family nftKeyword hook =
            (some ChainPriority.NATSource, ChainType.Filter)) ∧
        (strings_ToLower hook = NFT_HOOK_POSTROUTING →
          getChainPriority family nftKeyword hook =
            (some ChainPriority.ConntrackHelper, ChainType.Filter)) ∧
        (strings_ToLower hook ≠ NFT_HOOK_PREROUTING → strings_ToLower hook ≠ NFT_HOOK_OUTPUT →
          strings_ToLower hook ≠ NFT_HOOK_POSTROUTING →
          getChainPriority family nftKeyword hook =
            (some ChainPriority.Conntrack, ChainType.Filter))) ∧
    (strings_ToLower family ≠ NFT_FAMILY_BRIDGE → strings_ToLower family ≠ NFT_FAMILY_NETDEV →
      strings_ToLower family ≠ NFT_FAMILY_ARP →
        getChainPriority family nftKeyword hook =
          (some ChainPriority.Filter, ChainType.Filter)) := by
  have hd : NFT_CHAIN_FILTER ≠ NFT_CHAIN_NATDEST := by decide
  have hs : NFT_CHAIN_FILTER ≠ NFT_CHAIN_NATSOURCE := by decide
  have hbn : NFT_FAMILY_BRIDGE ≠ NFT_FAMILY_NETDEV := by decide
  have hba : NFT_FAMILY_BRIDGE ≠ NFT_FAMILY_ARP := by decide
  have hpo : NFT_HOOK_OUTPUT ≠ NFT_HOOK_PREROUTING := by decide
  have hpp : NFT_HOOK_POSTROUTING ≠ NFT_HOOK_PREROUTING := by decide
  have hop : NFT_HOOK_POSTROUTING ≠ NFT_HOOK_OUTPUT := by decide
  constructor
  · intro hb he hi
    have hbase : getChainPriority family nftKeyword hook =
        (some (chainSwitch NFT_FAMILY_BRIDGE NFT_CHAIN_FILTER (strings_ToLower hook)).1,
          (chainSwitch NFT_FAMILY_BRIDGE NFT_CHAIN_FILTER (strings_ToLower hook)).2) := by
      rw [getChainPriority_eq, hk, hb]
      simp only [hd, hs, or_self, false_and, if_false, hbn, hba, he, hi, ne_eq,
        not_true_eq_false, and_false]
    rw [hbase]
    refine ⟨?_, ?_, ?_, ?_⟩
    · intro hp
      simp only [chainSwitch, hp, if_true]
    · intro hp
      simp only [chainSwitch, hp, if_true, hpo, if_false]
    · intro hp
      simp only [chainSwitch, hp, if_true, hpp, hop, if_false]
    · intro hp ho hq
      simp only [chainSwitch, hp, ho, hq, if_true, if_false]
  · intro hb hn ha
    rw [getChainPriority_other_family family nftKeyword hook hn ha hb, hk]
    simp only [hd, hs, or_self, false_and, if_false, chainSwitch, if_true, hb]

/-- Witness of `getChainPriority_filter` at family `BRIDGE`, keyword `Filter`
and hook `output`. -/
theorem getChainPriority_filter_witness :
    getChainPriority "BRIDGE" "Filter" "output" =
      (some ChainPriority.NATSource, ChainType.Filter) :=
  ((getChainPriority_filter "BRIDGE" "Filter" "output" (by decide)).1 (by decide) (by decide)
    (by decide)).2.1 (by decide)

/-- C10: for every family other than netdev, arp and bridge and every hook
string, `getChainPriority` with keyword conntrack is never rejected and equals
`getConntrackPriority` of the lower-cased hook, which is (Conntrack, filter) at
prerouting and at output, (ConntrackHelper, nat) at postrouting,
(ConntrackConfirm, filter) at input and (Conntrack, filter) for any other hook
string, forward included. -/
theorem getChainPriority_conntrack (family nftKeyword hook : String)
    (hn : strings_ToLower family ≠ NFT_FAMILY_NETDEV)
    (ha : strings_ToLower family ≠ NFT_FAMILY_ARP)
    (hb : strings_ToLower family ≠ NFT_FAMILY_BRIDGE)
    (hk : strings_ToLower nftKeyword = NFT_CHAIN_CONNTRACK) :
    getChainPriority family nftKeyword hook =
        (some (getConntrackPriority (strings_ToLower hook)).1,
          (getConntrackPriority (strings_ToLower hook)).2) ∧
    getConntrackPriority NFT_HOOK_PREROUTING = (ChainPriority.Conntrack, ChainType.Filter) ∧
    getConntrackPriority NFT_HOOK_OUTPUT = (ChainPriority.Conntrack, ChainType.Filter) ∧
    getConntrackPriority NFT_HOOK_POSTROUTING = (ChainPriority.ConntrackHelper, ChainType.NAT) ∧
    getConntrackPriority NFT_HOOK_INPUT = (ChainPriority.ConntrackConfirm, ChainType.Filter) ∧
    getConntrackPriority NFT_HOOK_FORWARD = (ChainPriority.Conntrack, ChainType.Filter) ∧
    (∀ h : String, h ≠ NFT_HOOK_PREROUTING → h ≠ NFT_HOOK_OUTPUT → h ≠ NFT_HOOK_POSTROUTING →
      h ≠ NFT_HOOK_INPUT →
      getConntrackPriority h = (ChainPriority.Conntrack, ChainType.Filter)) := by
  refine ⟨?_, by decide, by decide, by decide, by decide, by decide, ?_⟩
  · have hd : NFT_CHAIN_CONNTRACK ≠ NFT_CHAIN_NATDEST := by decide
    have hs : NFT_CHAIN_CONNTRACK ≠ NFT_CHAIN_NATSOURCE := by decide
    have hf : NFT_CHAIN_CONNTRACK ≠ NFT_CHAIN_FILTER := by decide
    have hm : NFT_CHAIN_CONNTRACK ≠ NFT_CHAIN_MANGLE := by decide
    have hr : NFT_CHAIN_CONNTRACK ≠ NFT_CHAIN_RAW := by decide
    rw [getChainPriority_other_family family nftKeyword hook hn ha hb, hk]
    simp only [hd, hs, or_self, false_and, if_false, chainSwitch, hf, hm, hr, if_true]
  · intro h h1 h2 h3 h4
    simp only [getConntrackPriority, h1, h2, h3, h4, if_false]

/-- Witness of `getChainPriority_conntrack` at family `ip`, keyword
`conntrack` and hook `postrouting`. -/
theorem getChainPriority_conntrack_witness :
    getChainPriority "ip" "conntrack" "postrouting" =
      (some (getConntrackPriority (strings_ToLower "postrouting")).1,
        (getConntrackPriority (strings_ToLower "postrouting")).2) :=
  (getChainPriority_conntrack "ip" "conntrack" "postrouting" (by decide) (by decide) (by decide)
    (by decide)).1

/-! ## The mangle, NAT, raw and security keywords -/

/-- C11: for every family other than netdev, arp and bridge and every hook
string, `getChainPriority` with keyword mangle is never rejected, always
returns priority Mangle, and returns type route if and only if the lower-cased
hook is output (type filter for every other hook). -/
theorem getChainPriority_mangle (family nftKeyword hook : String)
    (hn : strings_ToLower family ≠ NFT_FAMILY_NETDEV)
    (ha : strings_ToLower family ≠ NFT_FAMILY_ARP)
    (hb : strings_ToLower family ≠ NFT_FAMILY_BRIDGE)
    (hk : strings_ToLower nftKeyword = NFT_CHAIN_MANGLE) :
    (getChainPriority family nftKeyword hook).1 = some ChainPriority.Mangle ∧
    ((getChainPriority family nftKeyword hook).2 = ChainType.Route ↔
      strings_ToLower hook = NFT_HOOK_OUTPUT) ∧
    (strings_ToLower hook ≠ NFT_HOOK_OUTPUT →
      (getChainPriority family nftKeyword hook).2 = ChainType.Filter) := by
  have hd : NFT_CHAIN_MANGLE ≠ NFT_CHAIN_NATDEST := by decide
  have hs : NFT_CHAIN_MANGLE ≠ NFT_CHAIN_NATSOURCE := by decide
  have hf : NFT_CHAIN_MANGLE ≠ NFT_CHAIN_FILTER := by decide
  rw [getChainPriority_other_family family nftKeyword hook hn ha hb, hk]
  simp only [hd, hs, or_self, false_and, if_false, chainSwitch, hf, if_true]
  by_cases ho : strings_ToLower hook = NFT_HOOK_OUTPUT
  · simp only [ho, if_true, ne_eq, not_true_eq_false, false_implies, and_self]
  · simp only [ho, if_false, ne_eq, not_false_eq_true, true_implies, and_true, true_and,
      iff_false]
    decide

/-- Witness of `getChainPriority_mangle` at family `ip`, keyword `mangle` and
hook `output`. -/
theorem getChainPriority_mangle_witness :
    (getChainPriority "ip" "mangle" "output").1 = some ChainPriority.Mangle ∧
    ((getChainPriority "ip" "mangle" "output").2 = ChainType.Route ↔
      strings_ToLower "output" = NFT_HOOK_OUTPUT) ∧
    (strings_ToLower "output" ≠ NFT_HOOK_OUTPUT →
      (getChainPriority "ip" "mangle" "output").2 = ChainType.Filter) :=
  getChainPriority_mangle "ip" "mangle" "output" (by decide) (by decide) (by decide) (by decide)

/-- C12: for every family other than netdev, arp and bridge and every hook
whose lower-cased value is not forward, `getChainPriority` resolves keyword
nat-dest to (NATDest, nat) and keyword nat-source to (NATSource, nat). -/
theorem getChainPriority_nat (family nftKeyword hook : String)
    (hn : strings_ToLower family ≠ NFT_FAMILY_NETDEV)
    (ha : strings_ToLower family ≠ NFT_FAMILY_ARP)
    (hb : strings_ToLower family ≠ NFT_FAMILY_BRIDGE)
    (hh : strings_ToLower hook ≠ NFT_HOOK_FORWARD) :
    (strings_ToLower nftKeyword = NFT_CHAIN_NATDEST →
      getChainPriority family nftKeyword hook = (some ChainPriority.NATDest, ChainType.NAT)) ∧
    (strings_ToLower nftKeyword = NFT_CHAIN_NATSOURCE →
      getChainPriority family nftKeyword hook =
        (some ChainPriority.NATSource, ChainType.NAT)) := by
  rw [getChainPriority_other_family family nftKeyword hook hn ha hb]
  simp only [hh, and_false, if_false]
  constructor
  · intro hk
    rw [hk]
    simp [chainSwitch, NFT_CHAIN_NATDEST, NFT_CHAIN_FILTER, NFT_CHAIN_MANGLE, NFT_CHAIN_RAW,
      NFT_CHAIN_CONNTRACK]
  · intro hk
    rw [hk]
    simp [chainSwitch, NFT_CHAIN_NATSOURCE, NFT_CHAIN_NATDEST, NFT_CHAIN_FILTER,
      NFT_CHAIN_MANGLE, NFT_CHAIN_RAW, NFT_CHAIN_CONNTRACK]

/-- Witness of `getChainPriority_nat` at family `ip`, keyword `nat-dest` and
hook `prerouting`. -/
theorem getChainPriority_nat_witness :
    getChainPriority "ip" "nat-dest" "prerouting" =
      (some ChainPriority.NATDest, ChainType.NAT) :=
  (getChainPriority_nat "ip" "nat-dest" "prerouting" (by decide) (by decide) (by decide)
    (by decide)).1 (by decide)

/-- C13: for every family other than netdev, arp and bridge, `getChainPriority`
gives keyword raw the result (Raw, filter) and keyword security the result
(Security, filter), for every hook string whatsoever. -/
theorem getChainPriority_raw_security (family nftKeyword hook : String)
    (hn : strings_ToLower family ≠ NFT_FAMILY_NETDEV)
    (ha : strings_ToLower family ≠ NFT_FAMILY_ARP)
    (hb : strings_ToLower family ≠ NFT_FAMILY_BRIDGE) :
    (strings_ToLower nftKeyword = NFT_CHAIN_RAW →
      getChainPriority family nftKeyword hook = (some ChainPriority.Raw, ChainType.Filter)) ∧
    (strings_ToLower nftKeyword = NFT_CHAIN_SECURITY →
      getChainPriority family nftKeyword hook =
        (some ChainPriority.Security, ChainType.Filter)) := by
  rw [getChainPriority_other_family family nftKeyword hook hn ha hb]
  constructor
  · intro hk
    rw [hk]
    simp [chainSwitch, NFT_CHAIN_RAW, NFT_CHAIN_NATSOURCE, NFT_CHAIN_NATDEST, NFT_CHAIN_FILTER,
      NFT_CHAIN_MANGLE]
  · intro hk
    rw [hk]
    simp [chainSwitch, NFT_CHAIN_SECURITY, NFT_CHAIN_RAW, NFT_CHAIN_NATSOURCE,
      NFT_CHAIN_NATDEST, NFT_CHAIN_FILTER, NFT_CHAIN_MANGLE, NFT_CHAIN_CONNTRACK]

/-- Witness of `getChainPriority_raw_security` at family `inet`, keyword
`Security` and an unknown hook. -/
theorem getChainPriority_raw_security_witness :
    getChainPriority "inet" "Security" "somewhere" =
      (some ChainPriority.Security, ChainType.Filter) :=
  (getChainPriority_raw_security "inet" "Security" "somewhere" (by decide) (by decide)
    (by decide)).2 (by decide)

/-! ## Case folding -/

/-- Lower-casing a character twice is the same as lower-casing it once. -/
theorem Char_toLower_toLower (c : Char) : Char.toLower (Char.toLower c) = Char.toLower c := by
  by_cases h : 65 ≤ c.toNat ∧ c.toNat ≤ 90
  · have h1 : Char.toLower c = Char.ofNat (c.toNat + 32) := by
      simp only [Char.toLower, ge_iff_le, h, and_self, if_true]
    rw [h1]
    obtain ⟨hl, hu⟩ := h
    generalize c.toNat = n at hl hu
    interval_cases n <;> rfl
  · have h1 : Char.toLower c = c := by
      simp only [Char.toLower, ge_iff_le, h, if_false]
    rw [h1, h1]

/-- Lower-casing a string twice is the same as lower-casing it once. -/
theorem strings_ToLower_idem (s : String) :
    strings_ToLower (strings_ToLower s) = strings_ToLower s := by
  simp only [strings_ToLower, List.map_map]
  congr 1
  apply List.map_congr_left
  intro c _
  exact Char_toLower_toLower c

/-- C14: `getChainPriority` is case-insensitive in all three arguments: the
result (rejection or the priority and type) equals the result for the
lower-cased triple, so two triples with the same lower-cased components yield
identical results, as do `("IP6","FILTER","INPUT")` and
`("ip6","filter","input")`. -/
theorem getChainPriority_case_insensitive (family nftKeyword hook : String) :
    getChainPriority family nftKeyword hook =
      getChainPriority (strings_ToLower family) (strings_ToLower nftKeyword)
        (strings_ToLower hook) ∧
    (∀ family2 nftKeyword2 hook2 : String,
      strings_ToLower family2 = strings_ToLower family →
      strings_ToLower nftKeyword2 = strings_ToLower nftKeyword →
      strings_ToLower hook2 = strings_ToLower hook →
      getChainPriority family2 nftKeyword2 hook2 = getChainPriority family nftKeyword hook) ∧
    getChainPriority "IP6" "FILTER" "INPUT" = getChainPriority "ip6" "filter" "input" := by
  refine ⟨?_, ?_, by decide⟩
  · simp only [getChainPriority, strings_ToLower_idem]
  · intro family2 nftKeyword2 hook2 hf hk hh
    simp only [getChainPriority, hf, hk, hh]

/-! ## The family and hook resolvers -/

/-- C15: `getFamilyCode` maps `ip` to IPv4, `ip6` to IPv6, `bridge` to Bridge,
`arp` to ARP and `netdev` to Netdev, and every other string (the empty string
and `inet` included) to the INet family; being a total function it never
fails. -/
theorem getFamilyCode_table (family : String) :
    getFamilyCode NFT_FAMILY_IP = TableFamily.IPv4 ∧
    getFamilyCode NFT_FAMILY_IP6 = TableFamily.IPv6 ∧
    getFamilyCode NFT_FAMILY_BRIDGE = TableFamily.Bridge ∧
    getFamilyCode NFT_FAMILY_ARP = TableFamily.ARP ∧
    getFamilyCode NFT_FAMILY_NETDEV = TableFamily.Netdev ∧
    (family ≠ NFT_FAMILY_IP → family ≠ NFT_FAMILY_IP6 → family ≠ NFT_FAMILY_BRIDGE →
      family ≠ NFT_FAMILY_ARP → family ≠ NFT_FAMILY_NETDEV →
      getFamilyCode family = TableFamily.INet) ∧
    getFamilyCode "" = TableFamily.INet ∧
    getFamilyCode "inet" = TableFamily.INet := by
  refine ⟨by decide, by decide, by decide, by decide, by decide, ?_, by decide, by decide⟩
  intro h1 h2 h3 h4 h5
  simp only [getFamilyCode, h1, h2, h3, h4, h5, if_false]

/-- C16: `getHook` is case-insensitive and total: the hook it returns depends
only on the lower-cased string; it is Input for `input`, Prerouting for
`prerouting`, Postrouting for `postrouting`, Forward for `forward`, Ingress
for `ingress`, and Output for every other string, `output` and `egress`
included. -/
theorem getHook_table (chain : String) :
    getHook chain = getHook (strings_ToLower chain) ∧
    (∀ chain2 : String, strings_ToLower chain2 = strings_ToLower chain →
      getHook chain2 = getHook chain) ∧
    (strings_ToLower chain = NFT_HOOK_INPUT → getHook chain = ChainHook.Input) ∧
    (strings_ToLower chain = NFT_HOOK_PREROUTING → getHook chain = ChainHook.Prerouting) ∧
    (strings_ToLower chain = NFT_HOOK_POSTROUTING → getHook chain = ChainHook.Postrouting) ∧
    (strings_ToLower chain = NFT_HOOK_FORWARD → getHook chain = ChainHook.Forward) ∧
    (strings_ToLower chain = NFT_HOOK_INGRESS → getHook chain = ChainHook.Ingress) ∧
    (strings_ToLower chain ≠ NFT_HOOK_INPUT → strings_ToLower chain ≠ NFT_HOOK_PREROUTING →
      strings_ToLower chain ≠ NFT_HOOK_POSTROUTING → strings_ToLower chain ≠ NFT_HOOK_FORWARD →
      strings_ToLower chain ≠ NFT_HOOK_INGRESS → getHook chain = ChainHook.Output) ∧
    getHook NFT_HOOK_OUTPUT = ChainHook.Output ∧
    getHook NFT_HOOK_EGRESS = ChainHook.Output := by
  refine ⟨?_, ?_, ?_, ?_, ?_, ?_, ?_, ?_, by decide, by decide⟩
  · simp only [getHook, strings_ToLower_idem]
  · intro chain2 h
    simp only [getHook, h]
  · intro h
    simp only [getHook, h, if_true]
  · intro h
    rw [getHook, h]
    decide
  · intro h
    rw [getHook, h]
    decide
  · intro h
    rw [getHook, h]
    decide
  · intro h
    rw [getHook, h]
    decide
  · intro h1 h2 h3 h4 h5
    simp only [getHook, h1, h2, h3, h4, h5, if_false]

/-! ## The netdev and arp guards as written -/

/-- C17: the netdev and arp exclusion clauses hold for every keyword and hook:
with family netdev or arp (lower-cased) `getChainPriority` returns the nil
priority, because `hook != A || hook != B` holds for every hook when the
constants `A` and `B` differ. -/
theorem getChainPriority_netdev_arp_rejected (family nftKeyword hook : String)
    (hf : strings_ToLower family = NFT_FAMILY_NETDEV ∨
      strings_ToLower family = NFT_FAMILY_ARP) :
    getChainPriority family nftKeyword hook = (none, ChainType.Filter) ∧
    (strings_ToLower hook ≠ NFT_HOOK_EGRESS ∨ strings_ToLower hook ≠ NFT_HOOK_INGRESS) ∧
    (strings_ToLower hook ≠ NFT_HOOK_OUTPUT ∨ strings_ToLower hook ≠ NFT_HOOK_INPUT) := by
  have hne : strings_ToLower hook ≠ NFT_HOOK_EGRESS ∨
      strings_ToLower hook ≠ NFT_HOOK_INGRESS := by
    by_cases he : strings_ToLower hook = NFT_HOOK_EGRESS
    · right; rw [he]; decide
    · left; exact he
  have hna : strings_ToLower hook ≠ NFT_HOOK_OUTPUT ∨
      strings_ToLower hook ≠ NFT_HOOK_INPUT := by
    by_cases he : strings_ToLower hook = NFT_HOOK_OUTPUT
    · right; rw [he]; decide
    · left; exact he
  refine ⟨?_, hne, hna⟩
  unfold getChainPriority
  simp only [hne, hna, or_true, and_true]
  rcases hf with hf | hf
  · simp only [hf, if_true, ite_self]
  · simp only [hf, if_true, ite_self]

/-- Witness of `getChainPriority_netdev_arp_rejected` at family `NetDev`,
keyword `filter` and hook `ingress`. -/
theorem getChainPriority_netdev_arp_rejected_witness :
    getChainPriority "NetDev" "filter" "ingress" = (none, ChainType.Filter) :=
  (getChainPriority_netdev_arp_rejected "NetDev" "filter" "ingress" (Or.inl (by decide))).1

/-! ## Numeric priorities of the bridge filter chains -/

/-- C18: the int32 values of the priorities returned for the bridge filter
chain: -300 at prerouting, 300 at postrouting and -200 at input, as the inline
comments say, but 100 (NATSource) at output, where the inline comment says
-100. -/
theorem getChainPriority_bridge_filter_values :
    (getChainPriority "bridge" "filter" "output").1 = some ChainPriority.NATSource ∧
    (getChainPriority "bridge" "filter" "output").1.map ChainPriority.toInt = some 100 ∧
    (getChainPriority "bridge" "filter" "output").1.map ChainPriority.toInt ≠ some (-100) ∧
    (getChainPriority "bridge" "filter" "prerouting").1.map ChainPriority.toInt = some (-300) ∧
    (getChainPriority "bridge" "filter" "postrouting").1.map ChainPriority.toInt = some 300 ∧
    (getChainPriority "bridge" "filter" "input").1.map ChainPriority.toInt = some (-200) := by
  decide

/-! ## Family resolution by the two resolvers -/

/-- On a family string that lower-casing leaves unchanged, `getFamilyCode`
returns the Bridge, ARP or Netdev code exactly when the lower-cased string is
the keyword `getChainPriority` compares its family against. -/
theorem getFamilyCode_of_lower (family : String) (hl : strings_ToLower family = family) :
    (getFamilyCode family = TableFamily.Bridge ↔
      strings_ToLower family = NFT_FAMILY_BRIDGE) ∧
    (getFamilyCode family = TableFamily.ARP ↔ strings_ToLower family = NFT_FAMILY_ARP) ∧
    (getFamilyCode family = TableFamily.Netdev ↔
      strings_ToLower family = NFT_FAMILY_NETDEV) := by
  rw [hl]
  simp only [getFamilyCode]
  split_ifs with h1 h2 h3 h4 h5 <;>
    simp_all [NFT_FAMILY_IP, NFT_FAMILY_IP6, NFT_FAMILY_BRIDGE, NFT_FAMILY_ARP,
      NFT_FAMILY_NETDEV]

/-- Two family strings that meet the netdev, arp and bridge comparisons alike
get the same result from `getChainPriority`. -/
theorem getChainPriority_congr_family (family family2 nftKeyword hook : String)
    (hn : strings_ToLower family = NFT_FAMILY_NETDEV ↔
      strings_ToLower family2 = NFT_FAMILY_NETDEV)
    (ha : strings_ToLower family = NFT_FAMILY_ARP ↔ strings_ToLower family2 = NFT_FAMILY_ARP)
    (hb : strings_ToLower family = NFT_FAMILY_BRIDGE ↔
      strings_ToLower family2 = NFT_FAMILY_BRIDGE) :
    getChainPriority family nftKeyword hook = getChainPriority family2 nftKeyword hook := by
  have hsw : chainSwitch (strings_ToLower family) (strings_ToLower nftKeyword)
        (strings_ToLower hook) =
      chainSwitch (strings_ToLower family2) (strings_ToLower nftKeyword)
        (strings_ToLower hook) := by
    simp only [chainSwitch, hb]
  rw [getChainPriority_eq, getChainPriority_eq, hsw]
  simp only [hn, ha, hb]

/-- C19: `getFamilyCode` compares the family string as given while
`getChainPriority` lower-cases it. For `BRIDGE` the first returns the INet
default while the second applies the bridge rules: it rejects keyword mangle
and gives keyword filter the priority Conntrack, where family `inet` resolves
mangle and gives filter the priority Filter. On a family string that is
already lower-case the two agree: `getChainPriority` rejects everything when
`getFamilyCode` says Netdev or ARP, applies the bridge exclusion and the bridge
filter priority exactly when it says Bridge, and otherwise rejects only
NAT at forward and gives filter the priority Filter; two lower-case family
strings with the same family code get the same result. -/
theorem getFamilyCode_getChainPriority_family :
    getFamilyCode "BRIDGE" = TableFamily.INet ∧
    getFamilyCode "inet" = TableFamily.INet ∧
    strings_ToLower "BRIDGE" = NFT_FAMILY_BRIDGE ∧
    getChainPriority "BRIDGE" "mangle" "input" = (none, ChainType.Filter) ∧
    getChainPriority "inet" "mangle" "input" = (some ChainPriority.Mangle, ChainType.Filter) ∧
    getChainPriority "BRIDGE" "filter" "input" =
      (some ChainPriority.Conntrack, ChainType.Filter) ∧
    getChainPriority "inet" "filter" "input" = (some ChainPriority.Filter, ChainType.Filter) ∧
    (∀ family nftKeyword hook : String, strings_ToLower family = family →
      ((getFamilyCode family = TableFamily.Netdev ∨ getFamilyCode family = TableFamily.ARP) →
        getChainPriority family nftKeyword hook = (none, ChainType.Filter)) ∧
      (getFamilyCode family = TableFamily.Bridge →
        ((getChainPriority family nftKeyword hook).1 = none ↔
          (strings_ToLower nftKeyword ≠ NFT_CHAIN_FILTER ∨
            (strings_ToLower hook = NFT_HOOK_EGRESS ∨
              strings_ToLower hook = NFT_HOOK_INGRESS))) ∧
        (strings_ToLower nftKeyword = NFT_CHAIN_FILTER →
          strings_ToLower hook = NFT_HOOK_INPUT →
          getChainPriority family nftKeyword hook =
            (some ChainPriority.Conntrack, ChainType.Filter))) ∧
      (getFamilyCode family ≠ TableFamily.Netdev → getFamilyCode family ≠ TableFamily.ARP →
        getFamilyCode family ≠ TableFamily.Bridge →
        ((getChainPriority family nftKeyword hook).1 = none ↔
          ((strings_ToLower nftKeyword = NFT_CHAIN_NATDEST ∨
              strings_ToLower nftKeyword = NFT_CHAIN_NATSOURCE) ∧
            strings_ToLower hook = NFT_HOOK_FORWARD)) ∧
        (strings_ToLower nftKeyword = NFT_CHAIN_FILTER →
          getChainPriority family nftKeyword hook =
            (some ChainPriority.Filter, ChainType.Filter)) ∧
        (strings_ToLower nftKeyword = NFT_CHAIN_MANGLE →
          strings_ToLower hook = NFT_HOOK_INPUT →
          getChainPriority family nftKeyword hook =
            (some ChainPriority.Mangle, ChainType.Filter)))) ∧
    (∀ family family2 nftKeyword hook : String,
      strings_ToLower family = family → strings_ToLower family2 = family2 →
      getFamilyCode family = getFamilyCode family2 →
      getChainPriority family nftKeyword hook = getChainPriority family2 nftKeyword hook) := by
  refine ⟨by decide, by decide, by decide, by decide, by decide, by decide, by decide, ?_, ?_⟩
  · intro family nftKeyword hook hl
    obtain ⟨hB, hA, hN⟩ := getFamilyCode_of_lower family hl
    refine ⟨?_, ?_, ?_⟩
    · intro hc
      rw [getChainPriority_eq]
      rcases hc with hc | hc
      · simp only [hN.1 hc, if_true, ite_self]
      · simp only [hA.1 hc, if_true, ite_self]
    · intro hc
      have hb := hB.1 hc
      have h1 : NFT_FAMILY_BRIDGE ≠ NFT_FAMILY_NETDEV := by decide
      have h2 : NFT_FAMILY_BRIDGE ≠ NFT_FAMILY_ARP := by decide
      rw [getChainPriority_eq, hb]
      simp only [h1, h2, if_false, true_and]
      constructor
      · by_cases hx : strings_ToLower nftKeyword ≠ NFT_CHAIN_FILTER ∨
            (strings_ToLower hook = NFT_HOOK_EGRESS ∨ strings_ToLower hook = NFT_HOOK_INGRESS)
        · simp only [if_pos hx, ite_self, hx, if_true]
        · have hk : strings_ToLower nftKeyword = NFT_CHAIN_FILTER := by
            by_contra hne
            exact hx (Or.inl hne)
          have hnat : ¬ ((strings_ToLower nftKeyword = NFT_CHAIN_NATDEST ∨
              strings_ToLower nftKeyword = NFT_CHAIN_NATSOURCE) ∧
              strings_ToLower hook = NFT_HOOK_FORWARD) := by
            rw [hk]
            intro hy
            rcases hy.1 with h | h
            · exact absurd h (by decide)
            · exact absurd h (by decide)
          rw [if_neg hnat, if_neg hx]
          simp only [hx, iff_false]
          exact Option.some_ne_none _
      · intro hk hh
        rw [hk, hh]
        simp [chainSwitch, NFT_CHAIN_FILTER, NFT_CHAIN_NATDEST, NFT_CHAIN_NATSOURCE,
          NFT_HOOK_INPUT, NFT_HOOK_EGRESS, NFT_HOOK_INGRESS, NFT_HOOK_PREROUTING,
          NFT_HOOK_OUTPUT, NFT_HOOK_POSTROUTING]
    · intro c1 c2 c3
      have hn : strings_ToLower family ≠ NFT_FAMILY_NETDEV := fun h => c1 (hN.2 h)
      have ha : strings_ToLower family ≠ NFT_FAMILY_ARP := fun h => c2 (hA.2 h)
      have hb : strings_ToLower family ≠ NFT_FAMILY_BRIDGE := fun h => c3 (hB.2 h)
      rw [getChainPriority_other_family family nftKeyword hook hn ha hb]
      refine ⟨?_, ?_, ?_⟩
      · by_cases hx : (strings_ToLower nftKeyword = NFT_CHAIN_NATDEST ∨
            strings_ToLower nftKeyword = NFT_CHAIN_NATSOURCE) ∧
            strings_ToLower hook = NFT_HOOK_FORWARD
        · rw [if_pos hx]
          exact iff_of_true rfl hx
        · rw [if_neg hx]
          simp only [hx, iff_false]
          exact Option.some_ne_none _
      · intro hk
        rw [hk]
        simp [chainSwitch, hb, NFT_CHAIN_FILTER, NFT_CHAIN_NATDEST, NFT_CHAIN_NATSOURCE]
      · intro hk hh
        rw [hk, hh]
        simp [chainSwitch, NFT_CHAIN_FILTER, NFT_CHAIN_MANGLE, NFT_CHAIN_NATDEST,
          NFT_CHAIN_NATSOURCE, NFT_HOOK_INPUT, NFT_HOOK_OUTPUT]
  · intro family family2 nftKeyword hook hl hl2 hc
    obtain ⟨hB, hA, hN⟩ := getFamilyCode_of_lower family hl
    obtain ⟨hB2, hA2, hN2⟩ := getFamilyCode_of_lower family2 hl2
    apply getChainPriority_congr_family
    · rw [← hN, ← hN2, hc]
    · rw [← hA, ← hA2, hc]
    · rw [← hB, ← hB2, hc]

/-! ## The chain type over all inputs -/

/-- The result of `getChainPriority` is either the rejection or what the
keyword switch leaves on the lower-cased arguments. -/
theorem getChainPriority_none_or_switch (family nftKeyword hook : String) :
    getChainPriority family nftKeyword hook = (none, ChainType.Filter) ∨
    getChainPriority family nftKeyword hook =
      (some (chainSwitch (strings_ToLower family) (strings_ToLower nftKeyword)
          (strings_ToLower hook)).1,
        (chainSwitch (strings_ToLower family) (strings_ToLower nftKeyword)
          (strings_ToLower hook)).2) := by
  rw [getChainPriority_eq]
  split_ifs
  · exact Or.inl rfl
  · exact Or.inl rfl
  · exact Or.inl rfl
  · exact Or.inl rfl
  · exact Or.inr rfl

/-- The chain type the keyword switch leaves, by keyword and hook. -/
theorem chainSwitch_type (f k h : String) :
    (chainSwitch f k h).2 =
      if k = NFT_CHAIN_MANGLE ∧ h = NFT_HOOK_OUTPUT then ChainType.Route
      else if k = NFT_CHAIN_NATDEST ∨ k = NFT_CHAIN_NATSOURCE ∨
          (k = NFT_CHAIN_CONNTRACK ∧ h = NFT_HOOK_POSTROUTING) then ChainType.NAT
      else ChainType.Filter := by
  by_cases h1 : k = NFT_CHAIN_FILTER
  · rw [h1]
    have e : (chainSwitch f NFT_CHAIN_FILTER h).2 = ChainType.Filter := by
      simp only [chainSwitch, if_true]
      split_ifs <;> rfl
    rw [e]
    simp [NFT_CHAIN_FILTER, NFT_CHAIN_MANGLE, NFT_CHAIN_NATDEST, NFT_CHAIN_NATSOURCE,
      NFT_CHAIN_CONNTRACK]
  by_cases h2 : k = NFT_CHAIN_MANGLE
  · rw [h2]
    by_cases ho : h = NFT_HOOK_OUTPUT
    · rw [ho]
      simp [chainSwitch, NFT_CHAIN_FILTER, NFT_CHAIN_MANGLE]
    · simp [chainSwitch, ho, NFT_CHAIN_FILTER, NFT_CHAIN_MANGLE, NFT_CHAIN_NATDEST,
        NFT_CHAIN_NATSOURCE, NFT_CHAIN_CONNTRACK]
  by_cases h3 : k = NFT_CHAIN_RAW
  · rw [h3]
    simp [chainSwitch, NFT_CHAIN_FILTER, NFT_CHAIN_MANGLE, NFT_CHAIN_RAW, NFT_CHAIN_NATDEST,
      NFT_CHAIN_NATSOURCE, NFT_CHAIN_CONNTRACK]
  by_cases h4 : k = NFT_CHAIN_CONNTRACK
  · rw [h4]
    have e : chainSwitch f NFT_CHAIN_CONNTRACK h = getConntrackPriority h := by
      simp [chainSwitch, NFT_CHAIN_FILTER, NFT_CHAIN_MANGLE, NFT_CHAIN_RAW,
        NFT_CHAIN_CONNTRACK]
    rw [e]
    by_cases hp : h = NFT_HOOK_POSTROUTING
    · rw [hp]
      simp [getConntrackPriority, NFT_CHAIN_CONNTRACK, NFT_CHAIN_MANGLE, NFT_HOOK_POSTROUTING,
        NFT_HOOK_PREROUTING, NFT_HOOK_OUTPUT]
    · have e2 : (getConntrackPriority h).2 = ChainType.Filter := by
        simp only [getConntrackPriority, hp, if_false]
        split_ifs <;> rfl
      rw [e2]
      simp [hp, NFT_CHAIN_CONNTRACK, NFT_CHAIN_MANGLE, NFT_CHAIN_NATDEST, NFT_CHAIN_NATSOURCE]
  by_cases h5 : k = NFT_CHAIN_NATDEST
  · rw [h5]
    simp [chainSwitch, NFT_CHAIN_FILTER, NFT_CHAIN_MANGLE, NFT_CHAIN_RAW, NFT_CHAIN_NATDEST,
      NFT_CHAIN_CONNTRACK]
  by_cases h6 : k = NFT_CHAIN_NATSOURCE
  · rw [h6]
    simp [chainSwitch, NFT_CHAIN_FILTER, NFT_CHAIN_MANGLE, NFT_CHAIN_RAW, NFT_CHAIN_NATDEST,
      NFT_CHAIN_NATSOURCE, NFT_CHAIN_CONNTRACK]
  have e : (chainSwitch f k h).2 = ChainType.Filter := by
    simp only [chainSwitch, h1, h2, h3, h4, h5, h6, if_false]
    split_ifs <;> rfl
  rw [e]
  simp only [h2, h4, h5, h6, false_and, or_self, if_false]

/-- C20: the chain type returned by `getChainPriority`, over all inputs: it is
route exactly when the result is resolved with keyword mangle and hook output;
it is nat exactly when the result is resolved and the keyword is nat-dest or
nat-source, or the keyword is conntrack and the hook is postrouting; in every
other case, and for every rejected result, it is filter. -/
theorem getChainPriority_type (family nftKeyword hook : String) :
    ((getChainPriority family nftKeyword hook).2 = ChainType.Route ↔
      ((getChainPriority family nftKeyword hook).1 ≠ none ∧
        strings_ToLower nftKeyword = NFT_CHAIN_MANGLE ∧
        strings_ToLower hook = NFT_HOOK_OUTPUT)) ∧
    ((getChainPriority family nftKeyword hook).2 = ChainType.NAT ↔
      ((getChainPriority family nftKeyword hook).1 ≠ none ∧
        (strings_ToLower nftKeyword = NFT_CHAIN_NATDEST ∨
          strings_ToLower nftKeyword = NFT_CHAIN_NATSOURCE ∨
          (strings_ToLower nftKeyword = NFT_CHAIN_CONNTRACK ∧
            strings_ToLower hook = NFT_HOOK_POSTROUTING)))) ∧
    ((getChainPriority family nftKeyword hook).2 ≠ ChainType.Route →
      (getChainPriority family nftKeyword hook).2 ≠ ChainType.NAT →
      (getChainPriority family nftKeyword hook).2 = ChainType.Filter) ∧
    ((getChainPriority family nftKeyword hook).1 = none →
      (getChainPriority family nftKeyword hook).2 = ChainType.Filter) := by
  have hm : NFT_CHAIN_MANGLE ≠ NFT_CHAIN_NATDEST ∧ NFT_CHAIN_MANGLE ≠ NFT_CHAIN_NATSOURCE ∧
      NFT_CHAIN_MANGLE ≠ NFT_CHAIN_CONNTRACK := by decide
  rcases getChainPriority_none_or_switch family nftKeyword hook with hr | hr
  · rw [hr]
    simp
  · rw [hr, chainSwitch_type]
    generalize strings_ToLower nftKeyword = k
    generalize strings_ToLower hook = h
    by_cases c1 : k = NFT_CHAIN_MANGLE ∧ h = NFT_HOOK_OUTPUT
    · simp [c1, hm.1, hm.2.1, hm.2.2]
    · by_cases c2 : k = NFT_CHAIN_NATDEST ∨ k = NFT_CHAIN_NATSOURCE ∨
          (k = NFT_CHAIN_CONNTRACK ∧ h = NFT_HOOK_POSTROUTING)
      · simp [c1, c2]
      · simp [c1, c2]

end Nftables
